import Mathlib

/- Verification development for the Open Context API client
   (src/opencontext/api.py, class OpenContextAPI).

   The Python code is shallowly embedded: pure helpers become Lean
   functions, the mutable attribute self.max_result_context_depth is
   threaded as explicit state, disk / network effects are captured by an
   explicit environment of functions, and Python exceptions are modeled
   as `Except String` errors.  The source's own `raise('msg')` calls
   hand `raise` a bare string, which in Python 3 surfaces
   TypeError('exceptions must derive from BaseException') instead of the
   constructed message; where a claim turns on the surfaced message (the
   unknown multi-value policy) the model carries that TypeError text,
   elsewhere the constructed text is kept as a readable label for the
   same fatal failure. -/

namespace OCAPI

/-- Python substring test `needle in hay` on strings (helper). -/
def pyInAux (n : List Char) : List Char → Bool
  | [] => n.isEmpty
  | c :: rest => n.isPrefixOf (c :: rest) || pyInAux n rest

/-- Python substring test `needle in hay` on strings. -/
def pyIn (needle hay : String) : Bool :=
  pyInAux needle.data hay.data

/-- Python `s.startswith(p)` (char-list based so that proofs can
evaluate it). -/
def pyStartsWith (s p : String) : Bool :=
  p.data.isPrefixOf s.data

/-- Split a char list on a separator character (helper for Python
`str.split(sep)`; every separator this code base uses is one
character). -/
def splitOnChar (sep : Char) : List Char → List (List Char)
  | [] => [[]]
  | c :: rest =>
    let r := splitOnChar sep rest
    if c = sep then [] :: r
    else
      match r with
      | h :: t => (c :: h) :: t
      | [] => [[c]]

/-- Python `s.split(sep)` for a one-character separator. -/
def pySplitC (sep : Char) (s : String) : List String :=
  (splitOnChar sep s.data).map String.mk

/-- A Python value stored in a GET-parameter dict in this code base:
either a string or an integer (`rows` and `flatten-attributes` are ints,
the rest are strings). -/
inductive PVal where
  | pstr (s : String)
  | pint (n : Int)
deriving DecidableEq

/-- A single-quote character as a string (used when rendering Python
`repr` output). -/
def sq : String := "\x27"

/-- Python `repr` of a parameter value (simple values without embedded
quotes, which is all this code base produces). -/
def pvalRepr : PVal → String
  | .pstr s => sq ++ s ++ sq
  | .pint n => toString n

/-- Python truthiness of a parameter value. -/
def pvalTruthy : PVal → Bool
  | .pstr s => s ≠ ""
  | .pint n => n ≠ 0

/-- Python `str()` of a dict with string keys, in insertion order, as
produced by `str(extra_params)` in `_make_url_cache_file_name`. -/
def pyDictStr (l : List (String × PVal)) : String :=
  "\x7b" ++ String.intercalate ", "
    (l.map (fun kv => sq ++ kv.1 ++ sq ++ ": " ++ pvalRepr kv.2)) ++ "\x7d"

/-- Python `dict.get` on an insertion-ordered dict (association list with
distinct keys). -/
def pyGet (l : List (String × PVal)) (k : String) : Option PVal :=
  (l.find? (fun kv => kv.1 == k)).map (·.2)

/-- Python `d[k] = v` on an insertion-ordered dict: update in place when
the key exists, append otherwise. -/
def pyDictSetP (l : List (String × PVal)) (k : String) (v : PVal) :
    List (String × PVal) :=
  if l.any (fun kv => kv.1 == k) then
    l.map (fun kv => if kv.1 == k then (k, v) else kv)
  else l ++ [(k, v)]

/-- The `prop` special-casing at the end of `_modify_get_params_by_url_check`:
re-add `prop` when the exact `prop=value` pair is not already in the url.
`propVal` is `params.get('prop')`.  A non-string `prop` value would make
`'prop=' + params['prop']` raise a TypeError in Python. -/
def propAdjust (url : String) (propVal : Option PVal)
    (extra : List (String × PVal)) : Except String (List (String × PVal)) :=
  match propVal with
  | some pv =>
    if pvalTruthy pv && ! ((pyGet extra "prop").elim false pvalTruthy) then
      match pv with
      | .pstr s =>
        if ! pyIn ("prop=" ++ s) url then .ok (pyDictSetP extra "prop" (.pstr s))
        else .ok extra
      | .pint _ => .error "TypeError: can only concatenate str (not int) to str"
    else .ok extra
  | none => .ok extra

/-- `_modify_get_params_by_url_check(url, params)`: keep the parameters
whose `key=` substring is not already in the url, with the `prop`
special case. -/
def modifyGetParamsByUrlCheck (url : String) (params : List (String × PVal)) :
    Except String (List (String × PVal)) :=
  if params.isEmpty then .ok []
  else
    propAdjust url (pyGet params "prop")
      (params.filter (fun kv => ! pyIn (kv.1 ++ "=") url))

/- ---------------------------------------------------------------------
   SHA-1, as used by `hashlib.sha1` on the UTF-8 bytes of the cache key.
   Words are naturals reduced mod 2^32.
   --------------------------------------------------------------------- -/

/-- Reduce to a 32-bit word. -/
def w32 (n : Nat) : Nat := n % 4294967296

/-- Rotate a 32-bit word left by `k` (for `0 < k < 32` and `x < 2^32`). -/
def rotl32 (k x : Nat) : Nat := w32 (x <<< k) ||| (x >>> (32 - k))

/-- UTF-8 encode a string to a byte list (`.encode('utf-8')`). -/
def utf8Encode (s : String) : List Nat :=
  (s.data.map (fun c =>
    let n := c.toNat
    if n < 128 then [n]
    else if n < 2048 then [192 + n / 64, 128 + n % 64]
    else if n < 65536 then [224 + n / 4096, 128 + (n / 64) % 64, 128 + n % 64]
    else [240 + n / 262144, 128 + (n / 4096) % 64, 128 + (n / 64) % 64,
          128 + n % 64])).flatten

/-- SHA-1 message padding: append 0x80, zero bytes to 56 mod 64, and the
big-endian 64-bit bit length. -/
def sha1Pad (msg : List Nat) : List Nat :=
  let ml := 8 * msg.length
  msg ++ [128] ++ List.replicate ((119 - msg.length % 64) % 64) 0
    ++ (List.range 8).map (fun i => (ml >>> (8 * (7 - i))) % 256)

/-- Big-endian word from a byte list. -/
def beWord (bytes : List Nat) : Nat := bytes.foldl (fun a b => a * 256 + b) 0

/-- The 16 words of chunk `ci` of a padded message. -/
def chunkWords (l : List Nat) (ci : Nat) : List Nat :=
  (List.range 16).map (fun wi => beWord ((l.drop (64 * ci + 4 * wi)).take 4))

/-- Extend 16 words to the 80-word SHA-1 message schedule. -/
def extendWords (ws : List Nat) : List Nat :=
  (List.range 64).foldl (fun acc i =>
    let j := 16 + i
    acc ++ [rotl32 1 (((acc.getD (j - 3) 0) ^^^ (acc.getD (j - 8) 0))
      ^^^ ((acc.getD (j - 14) 0) ^^^ (acc.getD (j - 16) 0)))]) ws

/-- One SHA-1 round. -/
def sha1Round (st : Nat × Nat × Nat × Nat × Nat) (i : Nat) (wi : Nat) :
    Nat × Nat × Nat × Nat × Nat :=
  let (a, b, c, d, e) := st
  let f :=
    if i < 20 then (b &&& c) ||| ((4294967295 - b) &&& d)
    else if i < 40 then (b ^^^ c) ^^^ d
    else if i < 60 then (b &&& c) ||| (b &&& d) ||| (c &&& d)
    else (b ^^^ c) ^^^ d
  let k :=
    if i < 20 then 1518500249
    else if i < 40 then 1859775393
    else if i < 60 then 2400959708
    else 3395469782
  (w32 (rotl32 5 a + f + e + k + wi), a, rotl32 30 b, c, d)

/-- Process one 512-bit chunk. -/
def sha1Chunk (h : Nat × Nat × Nat × Nat × Nat) (ws : List Nat) :
    Nat × Nat × Nat × Nat × Nat :=
  let (a, b, c, d, e) :=
    (List.range 80).foldl (fun st i => sha1Round st i (ws.getD i 0)) h
  let (h0, h1, h2, h3, h4) := h
  (w32 (h0 + a), w32 (h1 + b), w32 (h2 + c), w32 (h3 + d), w32 (h4 + e))

/-- Lowercase 8-hex-digit rendering of a 32-bit word. -/
def toHex8 (n : Nat) : String :=
  String.mk ((List.range 8).map (fun i =>
    "0123456789abcdef".data.getD ((n >>> (4 * (7 - i))) % 16) '0'))

/-- `hashlib.sha1(bytes).hexdigest()`. -/
def sha1Hex (msg : List Nat) : String :=
  let padded := sha1Pad msg
  let (h0, h1, h2, h3, h4) :=
    (List.range (padded.length / 64)).foldl
      (fun h ci => sha1Chunk h (extendWords (chunkWords padded ci)))
      (1732584193, 4023233417, 2562383102, 271733878, 3285377520)
  toHex8 h0 ++ toHex8 h1 ++ toHex8 h2 ++ toHex8 h3 ++ toHex8 h4

/-- Discard a `#` fragment: `url.split('#')[0]` guarded by `'#' in url`,
as at the top of `_make_url_cache_file_name`. -/
def stripFragment (url : String) : String :=
  if pyIn "#" url then (pySplitC '#' url).headD "" else url

/-- `_make_url_cache_file_name(url, extra_params)` with the cache file
name prefix `pfx` (attribute `self.cache_file_prefix` in the source) and
the default `.json` extension (the only one this repository uses). -/
def makeUrlCacheFileName (pfx url : String)
    (extraParams : List (String × PVal)) : Except String String := do
  let url := stripFragment url
  let extraSuffix ←
    if ! extraParams.isEmpty then do
      let ep ← modifyGetParamsByUrlCheck url extraParams
      pure (pyDictStr ep)
    else pure ""
  pure (pfx ++ "-" ++ sha1Hex (utf8Encode (url ++ extraSuffix)) ++ ".json")

/- ---------------------------------------------------------------------
   JSON values.  Python floats are modeled as exact rationals; the
   claims under verification never exercise binary rounding.
   --------------------------------------------------------------------- -/

/-- A JSON value as Python's `json` module produces it: `int` and
`float` are distinct (they print differently and `float()` returns the
latter). -/
inductive Json where
  | null
  | bool (b : Bool)
  | int (n : Int)
  | float (q : Rat)
  | str (s : String)
  | arr (elems : List Json)
  | obj (kvs : List (String × Json))

mutual

/-- Structural equality of JSON values (Python `==` restricted to
same-type comparisons; the cross-type numeric equalities Python also
admits, such as `1 == 1.0`, are never exercised by the claims). -/
def Json.beq : Json → Json → Bool
  | .null, .null => true
  | .bool a, .bool b => a == b
  | .int a, .int b => a == b
  | .float a, .float b => a == b
  | .str a, .str b => a == b
  | .arr a, .arr b => Json.beqList a b
  | .obj a, .obj b => Json.beqObj a b
  | _, _ => false

/-- Elementwise equality of JSON lists. -/
def Json.beqList : List Json → List Json → Bool
  | [], [] => true
  | a :: as, b :: bs => Json.beq a b && Json.beqList as bs
  | _, _ => false

/-- Entrywise equality of JSON objects. -/
def Json.beqObj : List (String × Json) → List (String × Json) → Bool
  | [], [] => true
  | (k1, v1) :: as, (k2, v2) :: bs => k1 == k2 && Json.beq v1 v2 && Json.beqObj as bs
  | _, _ => false

end

instance : BEq Json := ⟨Json.beq⟩

/-- Python truthiness of a JSON value (`if obj:`). -/
def truthy : Json → Bool
  | .null => false
  | .bool b => b
  | .int n => n != 0
  | .float q => q != 0
  | .str s => s != ""
  | .arr l => ! l.isEmpty
  | .obj l => ! l.isEmpty

/-- `d.get(k)` on a JSON value: `None` when the key is missing, an
AttributeError when the value is not a dict. -/
def pyDictGet (j : Json) (k : String) : Except String (Option Json) :=
  match j with
  | .obj kvs => .ok ((kvs.find? (fun kv => kv.1 == k)).map (·.2))
  | _ => .error "AttributeError: object has no attribute get"

/-- `d.get(k, default)` on a JSON value. -/
def pyDictGetD (j : Json) (k : String) (d : Json) : Except String Json :=
  (pyDictGet j k).map (fun o => o.getD d)

/-- `d[k]` on a JSON value. -/
def pyIndex (j : Json) (k : String) : Except String Json :=
  match j with
  | .obj kvs =>
    match kvs.find? (fun kv => kv.1 == k) with
    | some kv => .ok kv.2
    | none => .error ("KeyError: " ++ k)
  | _ => .error "TypeError: object is not subscriptable"

/-- Python `k in j` for a string `k`: key test on dicts, substring test
on strings, element test on lists. -/
def pyContains (container : Json) (key : String) : Except String Bool :=
  match container with
  | .obj kvs => .ok (kvs.any (fun kv => kv.1 == key))
  | .str s => .ok (pyIn key s)
  | .arr l => .ok (l.any (fun e => e == .str key))
  | _ => .error "TypeError: argument is not iterable"

/-- `for x in j`: lists yield elements, strings yield characters, dicts
yield keys. -/
def pyIterElems : Json → Except String (List Json)
  | .arr l => .ok l
  | .str s => .ok (s.data.map (fun c => .str (String.singleton c)))
  | .obj kvs => .ok (kvs.map (fun kv => .str kv.1))
  | _ => .error "TypeError: object is not iterable"

/-- Coerce a JSON value to a number the way Python arithmetic and
comparisons with a number do (bools count as 0 / 1). -/
def pyToRat : Json → Except String Rat
  | .int n => .ok (n : Rat)
  | .float q => .ok q
  | .bool b => .ok (if b then 1 else 0)
  | _ => .error "TypeError: unsupported operand type"

/-- Python comparison `j < 1` (used for `total_found < 1`). -/
def pyLt1 (j : Json) : Except String Bool :=
  (pyToRat j).map (fun q => decide (q < 1))

/- ---------------------------------------------------------------------
   Rendering of Python values back to strings (`str`, `repr`,
   `json.dumps`) and `float()` parsing.
   --------------------------------------------------------------------- -/

/-- Multiplicity of `p` in `n` (fuel-bounded helper for rendering exact
decimal floats). -/
def multiplicityAux (p : Nat) : Nat → Nat → Nat
  | 0, _ => 0
  | fuel + 1, n =>
    if n % p == 0 && n != 0 && decide (1 < p) then
      multiplicityAux p fuel (n / p) + 1
    else 0

/-- Multiplicity of `p` in `n`. -/
def padicValue (p n : Nat) : Nat := multiplicityAux p n n

/-- Python `str`/`repr` of a float, for floats whose exact value has a
finite decimal expansion (all floats appearing in the claims; other
rationals fall back to Lean rendering and are never exercised). -/
def floatRepr (q : Rat) : String :=
  let d := q.den
  if d = 1 then toString q.num ++ ".0"
  else
    let a := padicValue 2 d
    let b := padicValue 5 d
    let k := max a b
    if d = 2 ^ a * 5 ^ b then
      let sign := if q.num < 0 then "-" else ""
      let digits := (toString (q.num.natAbs * (10 ^ k / d))).data
      let digits :=
        if digits.length ≤ k then List.replicate (k + 1 - digits.length) '0' ++ digits
        else digits
      sign ++ String.mk (digits.take (digits.length - k)) ++ "."
        ++ String.mk (digits.drop (digits.length - k))
    else toString q

mutual

/-- Python `repr` of a JSON value (quotes around strings; containers
recurse; assumes no quote characters inside strings, which holds for
every value this development evaluates). -/
def pyRepr : Json → String
  | .null => "None"
  | .bool true => "True"
  | .bool false => "False"
  | .int n => toString n
  | .float q => floatRepr q
  | .str s => sq ++ s ++ sq
  | .arr l => "[" ++ String.intercalate ", " (pyReprList l) ++ "]"
  | .obj kvs =>
    "\x7b" ++ String.intercalate ", " (pyReprObj kvs) ++ "\x7d"

/-- `repr` of the elements of a JSON list. -/
def pyReprList : List Json → List String
  | [] => []
  | j :: rest => pyRepr j :: pyReprList rest

/-- `repr` of the entries of a JSON object. -/
def pyReprObj : List (String × Json) → List String
  | [] => []
  | (k, v) :: rest => (sq ++ k ++ sq ++ ": " ++ pyRepr v) :: pyReprObj rest

end

/-- Python `str` of a JSON value (identity on strings, `repr` elsewhere). -/
def pyStr : Json → String
  | .str s => s
  | j => pyRepr j

/-- Minimal JSON string escaping (backslash and double quote; the claims
never exercise other escapes). -/
def jsonEscape (s : String) : String :=
  String.join (s.data.map (fun c =>
    if c = '\\' then "\\\\" else if c = '"' then "\\\"" else String.singleton c))

mutual

/-- `json.dumps(j, ensure_ascii=False)` with the default separators. -/
def jsonDump : Json → String
  | .null => "null"
  | .bool true => "true"
  | .bool false => "false"
  | .int n => toString n
  | .float q => floatRepr q
  | .str s => "\"" ++ jsonEscape s ++ "\""
  | .arr l => "[" ++ String.intercalate ", " (jsonDumpList l) ++ "]"
  | .obj kvs =>
    "\x7b" ++ String.intercalate ", " (jsonDumpObj kvs) ++ "\x7d"

/-- `json.dumps` of the elements of a JSON list. -/
def jsonDumpList : List Json → List String
  | [] => []
  | j :: rest => jsonDump j :: jsonDumpList rest

/-- `json.dumps` of the entries of a JSON object. -/
def jsonDumpObj : List (String × Json) → List String
  | [] => []
  | (k, v) :: rest => ("\"" ++ jsonEscape k ++ "\": " ++ jsonDump v) :: jsonDumpObj rest

end

/-- Digit-list value, `none` unless nonempty and all digits. -/
def digitsVal (l : List Char) : Option Nat :=
  if l.isEmpty || ! l.all Char.isDigit then none
  else some (l.foldl (fun a c => a * 10 + (c.toNat - 48)) 0)

/-- Unsigned decimal mantissa of a Python float literal: `digits`,
`digits.`, `.digits` or `digits.digits`. -/
def parseMantissa (t : String) : Option Rat :=
  match splitOnChar '.' t.data with
  | [a] => (digitsVal a).map (fun n => (n : Rat))
  | [a, b] =>
    if a.isEmpty && b.isEmpty then none
    else if a.isEmpty then (digitsVal b).map (fun n => (n : Rat) / 10 ^ b.length)
    else if b.isEmpty then (digitsVal a).map (fun n => (n : Rat))
    else
      match digitsVal a, digitsVal b with
      | some x, some y => some ((x : Rat) + (y : Rat) / 10 ^ b.length)
      | _, _ => none
  | _ => none

/-- Python `float(string)` on ordinary decimal literals (optional sign,
digits, dot, exponent).  `inf`, `nan` and digit underscores are outside
the model and treated as failures; the claims never exercise them. -/
def pyFloatParse (s : String) : Option Rat :=
  let t := (((s.data.dropWhile Char.isWhitespace).reverse.dropWhile
    Char.isWhitespace).reverse.map Char.toLower)
  let (sign, t) :=
    match t with
    | '-' :: rest => ((-1 : Rat), rest)
    | '+' :: rest => ((1 : Rat), rest)
    | _ => ((1 : Rat), t)
  let core :=
    match splitOnChar 'e' t with
    | [m] => parseMantissa (String.mk m)
    | [m, ex] =>
      let (esign, ed) :=
        match ex with
        | '-' :: rest => (true, rest)
        | '+' :: rest => (false, rest)
        | _ => (false, ex)
      match parseMantissa (String.mk m), digitsVal ed with
      | some mv, some k =>
        some (if esign then mv / 10 ^ k else mv * 10 ^ k)
      | _, _ => none
    | _ => none
  core.map (fun q => sign * q)

/-- Python `float(v)` on a JSON value: numbers and bools convert,
strings parse, everything else raises (modeled as `none`; the caller in
`_process_record_attributes` catches every exception). -/
def pyFloatOf : Json → Option Rat
  | .int n => some (n : Rat)
  | .float q => some q
  | .bool b => some (if b then 1 else 0)
  | .str s => pyFloatParse s
  | _ => none

/- ---------------------------------------------------------------------
   Configuration state of an OpenContextAPI instance (the attributes set
   in __init__), and class constants.
   --------------------------------------------------------------------- -/

/-- `MULTI_VALUE_ATTRIBUTE_HANDLING`. -/
def MULTI_VALUE_ATTRIBUTE_HANDLING : List String :=
  ["first", "last", "json", "concat", "column_val"]

/-- `STANDARD_MULTI_VALUE_HANDLING`. -/
def STANDARD_MULTI_VALUE_HANDLING : List (String × String) :=
  [("Has fusion character", "column_val")]

/-- `TEXT_FACET_OPTION_KEYS`. -/
def TEXT_FACET_OPTION_KEYS : List String :=
  ["oc-api:has-id-options", "oc-api:has-text-options"]

/-- `NON_TEXT_OPTION_KEYS`. -/
def NON_TEXT_OPTION_KEYS : List String :=
  ["oc-api:has-numeric-options", "oc-api:has-boolean-options",
   "oc-api:has-integer-options", "oc-api:has-float-options",
   "oc-api:has-date-options"]

/-- `FACET_OPTIONS_KEYS` (note the S: the class defines this name; the
body of get_common_attributes mistakenly asks for FACET_OPTION_KEYS). -/
def FACET_OPTIONS_KEYS : List String :=
  TEXT_FACET_OPTION_KEYS ++ NON_TEXT_OPTION_KEYS

/-- `NON_ATTRIBUTE_SLUG_PREFIXES`. -/
def NON_ATTRIBUTE_SLUG_PREFIXES : List String := ["gbif-", "eol-p-"]

/-- `VON_DEN_DRIESCH_PROP`. -/
def VON_DEN_DRIESCH_PROP : String :=
  "oc-zoo-anatomical-meas---oc-zoo-von-den-driesch-bone-meas"

/-- `DEFAULT_FIRST_DF_COLUMNS`. -/
def DEFAULT_FIRST_DF_COLUMNS : List String :=
  ["uri", "citation uri", "label", "item category", "project label",
   "project uri", "published", "updated", "latitude", "longitude",
   "early bce/ce", "late bce/ce", "context uri"]

/-- `CONTEXT_LEVEL_COLUMN_TEMPLATE.format(i)`. -/
def mkContextCol (i : Nat) : String := "Context (" ++ toString i ++ ")"

/-- The instance attributes set in `__init__` that the embedded
operations read (`self.max_result_context_depth` is mutable state and is
threaded separately). -/
structure Config where
  recsPerRequest : Nat
  flattenAttributes : Bool
  responseTypes : List String
  cacheFilePfx : String
  multiValueHandleNonNumber : String
  multiValueHandleNumber : String
  multiValueDelim : String
  multiValueHandleKeyedAttribs : List (String × String)

/-- The `__init__` defaults; `pfx` stands for the date string
`date.today().strftime` assigns to `self.cache_file_prefix`. -/
def defaultConfig (pfx : String) : Config :=
  ⟨200, false, ["metadata", "uri-meta"], pfx, "concat", "first", "; ",
   STANDARD_MULTI_VALUE_HANDLING⟩

/-- `dict.get` on a string-valued dict (the per-key multi-value
handler table). -/
def pyGetS (l : List (String × String)) (k : String) : Option String :=
  (l.find? (fun kv => kv.1 == k)).map (·.2)

/- ---------------------------------------------------------------------
   Response cache and fetcher (clear_api_cache, _get_parse_cached_json,
   _cache_json, get_cache_url).  Disk and network are an explicit
   environment: `cacheRead name` is the parsed content of the cache file
   (none for a missing, unreadable or malformed file, exactly what
   _get_parse_cached_json collapses to None), and `fetch url params` is
   the live request (none for a transport error, a non-success status or
   an unparseable body, which all make the except-block set the result
   to None).
   --------------------------------------------------------------------- -/

/-- An entry of the cache directory listing (`os.listdir` plus the
`os.path.isfile` test). -/
structure DirEntry where
  name : String
  isFile : Bool
deriving DecidableEq

/-- `clear_api_cache(keep_prefix)` on a directory listing: returns the
entries that remain and the names removed, walking the listing exactly
as the source loop does (non-files are skipped; with `keep_prefix` a
file is kept when its name starts with the configured prefix; the
directory itself is never part of the listing).  `pfx` is
`self.cache_file_prefix`. -/
def clearApiCache (pfx : String) (keepPfx : Bool) :
    List DirEntry → List DirEntry × List String
  | [] => ([], [])
  | e :: rest =>
    let (rem, del) := clearApiCache pfx keepPfx rest
    if ! e.isFile then (e :: rem, del)
    else if keepPfx && pyStartsWith e.name pfx then (e :: rem, del)
    else (rem, e.name :: del)

/-- The external effects get_cache_url can perform. -/
structure FetchEnv where
  cacheRead : String → Option Json
  fetch : String → List (String × PVal) → Option Json

/-- Result of get_cache_url, with the observable effects: whether the
pacing sleep ran, whether a live request was attempted, and the cache
write performed. -/
structure CacheResult where
  result : Except String Json
  slept : Bool
  fetched : Bool
  wrote : Option (String × Json)

/-- The live part of `get_cache_url` (everything after the cache
lookup): re-resolve the effective parameters, sleep, request, raise on a
falsy or failed body, and cache the payload under `cacheName`. -/
def liveFetch (env : FetchEnv) (url : String)
    (extraParams : List (String × PVal)) (cacheName : String) : CacheResult :=
  match modifyGetParamsByUrlCheck url extraParams with
  | .error e => ⟨.error e, false, false, none⟩
  | .ok eff =>
    match env.fetch url eff with
    | some j =>
      if truthy j then ⟨.ok j, true, true, some (cacheName, j)⟩
      else ⟨.error ("Request fail with URL: " ++ url), true, true, none⟩
    | none => ⟨.error ("Request fail with URL: " ++ url), true, true, none⟩

/-- `get_cache_url(url, extra_params)`: build the cache file name, return
a truthy cached payload directly (no sleep, no request), otherwise fall
through to the live fetch.  `pfx` is `self.cache_file_prefix`. -/
def getCacheUrl (env : FetchEnv) (pfx url : String)
    (extraParams : List (String × PVal)) : CacheResult :=
  match makeUrlCacheFileName pfx url extraParams with
  | .error e => ⟨.error e, false, false, none⟩
  | .ok name =>
    match env.cacheRead name with
    | some j =>
      if truthy j then ⟨.ok j, false, false, none⟩
      else liveFetch env url extraParams name
    | none => liveFetch env url extraParams name

/- ---------------------------------------------------------------------
   Record normalization (_handle_multi_values,
   _process_record_attributes).
   --------------------------------------------------------------------- -/

/-- `record[key] = v` on the record dict being built: update in place
when the key exists, append otherwise. -/
def dictSet (r : List (String × Json)) (k : String) (v : Json) :
    List (String × Json) :=
  if r.any (fun kv => kv.1 == k) then
    r.map (fun kv => if kv.1 == k then (k, v) else kv)
  else r ++ [(k, v)]

/-- Python `repr` of a list of strings, as `str(self.MULTI_VALUE_ATTRIBUTE_HANDLING)`
renders it inside the message the unknown-policy branch constructs (and,
because the source hands `raise` a bare string, then discards). -/
def pyListStrRepr (l : List String) : String :=
  "[" ++ String.intercalate ", " (l.map (fun s => sq ++ s ++ sq)) ++ "]"

/-- `_handle_multi_values(handle, key, values, record)`.  `delim` is
`self.multi_value_delim`.  An unknown policy fails before the record is
touched: the source formats
`'Unknown multi-value handling: {} must be: {}'` and hands that string
to `raise`, but raising a non-exception is itself an error in Python 3,
so the exception that actually surfaces is
`TypeError('exceptions must derive from BaseException')` and the
constructed message (the only place the invalid policy is named) is
discarded; the model carries the surfaced message.  A non-list value is
wrapped in a one-element list; the final `elif` chain is exhaustive for
the five known policies. -/
def handleMultiValues (delim handle key : String) (values : Json)
    (record : List (String × Json)) : Except String (List (String × Json)) :=
  if ! MULTI_VALUE_ATTRIBUTE_HANDLING.contains handle then
    .error "TypeError: exceptions must derive from BaseException"
  else
    let vals := match values with
      | .arr l => l
      | v => [v]
    if handle = "first" then
      match vals.head? with
      | some v => .ok (dictSet record key v)
      | none => .error "IndexError: list index out of range"
    else if handle = "last" then
      match vals.getLast? with
      | some v => .ok (dictSet record key v)
      | none => .error "IndexError: list index out of range"
    else if handle = "json" then
      .ok (dictSet record key (.str (jsonDump (.arr vals))))
    else if handle = "concat" then
      .ok (dictSet record key (.str (String.intercalate delim (vals.map pyStr))))
    else
      .ok (vals.foldl (fun r v => dictSet r (key ++ " :: " ++ pyStr v) (.bool true))
        record)

/-- The key/value loop of `_process_record_attributes`, threading the
record being built and `self.max_result_context_depth`. -/
def processItems (cfg : Config) :
    List (String × Json) → List (String × Json) → Nat →
    Except String (List (String × Json) × Nat)
  | [], record, dep => .ok (record, dep)
  | (key, value) :: rest, record, dep =>
    if key = "context label" then
      match value with
      | .str s =>
        let contexts := pySplitC '/' s
        let dep' := if contexts.length > dep then contexts.length else dep
        let record' := (contexts.foldl
          (fun (acc : List (String × Json) × Nat) c =>
            (dictSet acc.1 (mkContextCol acc.2) (Json.str c), acc.2 + 1))
          (record, 1)).1
        processItems cfg rest record' dep'
      | _ => .error "AttributeError: object has no attribute split"
    else
      let keyedHandle := (pyGetS cfg.multiValueHandleKeyedAttribs key).getD ""
      if keyedHandle ≠ "" then
        match handleMultiValues cfg.multiValueDelim keyedHandle key value record with
        | .error e => .error e
        | .ok record' => processItems cfg rest record' dep
      else
        match value with
        | .arr vlist =>
          let scan := vlist.foldl
            (fun (acc : List Json × Bool) v =>
              match pyFloatOf v with
              | some q => (acc.1 ++ [Json.float q], acc.2)
              | none => (acc.1 ++ [v], false))
            ([], true)
          let h := if scan.2 then cfg.multiValueHandleNumber
                   else cfg.multiValueHandleNonNumber
          match handleMultiValues cfg.multiValueDelim h key (Json.arr scan.1) record with
          | .error e => .error e
          | .ok record' => processItems cfg rest record' dep
        | v => processItems cfg rest (dictSet record key v) dep

/-- `_process_record_attributes(raw_record)`: iterate the raw record's
items; a non-dict raw record raises. -/
def processRecordAttributes (cfg : Config) (depth : Nat) (raw : Json) :
    Except String (List (String × Json) × Nat) :=
  match raw with
  | .obj kvs => processItems cfg kvs [] depth
  | _ => .error "AttributeError: object has no attribute items"

/-- The record loop of `get_paged_json_records`: normalize every raw
record of a page in order, threading the context-depth state. -/
def processRecords (cfg : Config) :
    Nat → List Json → Except String (List (List (String × Json)) × Nat)
  | dep, [] => .ok ([], dep)
  | dep, raw :: rest =>
    match processRecordAttributes cfg dep raw with
    | .error e => .error e
    | .ok (r, dep') =>
      match processRecords cfg dep' rest with
      | .error e => .error e
      | .ok (rs, depF) => .ok (r :: rs, depF)

/- ---------------------------------------------------------------------
   Pagination walker (get_paged_json_records).
   --------------------------------------------------------------------- -/

/-- The extra GET parameters `get_paged_json_records` builds, in
insertion order: rows, attributes (when slugs are given), response
(when response types are configured), flatten-attributes (when
enabled). -/
def buildPageParams (cfg : Config) (slugs : List String) : List (String × PVal) :=
  let p : List (String × PVal) := [("rows", .pint cfg.recsPerRequest)]
  let p := if slugs.length ≠ 0 then
             p ++ [("attributes", .pstr (String.intercalate "," slugs))]
           else p
  let p := if cfg.responseTypes.length ≠ 0 then
             p ++ [("response", .pstr (String.intercalate "," cfg.responseTypes))]
           else p
  if cfg.flattenAttributes then p ++ [("flatten-attributes", .pint 1)] else p

/-- The progress-print block of `get_paged_json_records`: computing
`startIndex + itemsPerPage` and comparing it with `totalResults`
requires those metadata fields to be numeric (`totalResults` must be
present: `int > None` is a Python TypeError). -/
def progressCheck (jd : Json) : Except String Unit := do
  let _ ← pyToRat (← pyDictGetD jd "startIndex" (.int 0))
  let _ ← pyToRat (← pyDictGetD jd "itemsPerPage" (.int 0))
  match ← pyDictGet jd "totalResults" with
  | none => .error "TypeError: comparison of int and NoneType"
  | some t => do
    let _ ← pyToRat t
    pure ()

/-- `get_paged_json_records(url, attribute_slugs, do_paging)`.  The Nat
fuel bounds the recursion depth exactly as Python's recursion limit
does; every claim instantiates it above the page-chain length.  Returns
the record list (None when the response is falsy, which get_cache_url
makes unreachable) together with the final max-context-depth state. -/
def getPagedJsonRecords (env : FetchEnv) (cfg : Config) :
    Nat → String → List String → Bool → Nat →
    Except String (Option (List (List (String × Json))) × Nat)
  | 0, _, _, _, _ => .error "RecursionError: maximum recursion depth exceeded"
  | fuel + 1, url, slugs, doPaging, depth =>
    match (getCacheUrl env cfg.cacheFilePfx url (buildPageParams cfg slugs)).result with
    | .error e => .error e
    | .ok jd =>
      if truthy jd then
        match progressCheck jd with
        | .error e => .error e
        | .ok _ =>
          match pyDictGetD jd "oc-api:has-results" (.arr []) with
          | .error e => .error e
          | .ok rawsJ =>
            match pyIterElems rawsJ with
            | .error e => .error e
            | .ok raws =>
              match processRecords cfg depth raws with
              | .error e => .error e
              | .ok (records, depth') =>
                match pyDictGet jd "next" with
                | .error e => .error e
                | .ok nextO =>
                  let nextV := nextO.getD .null
                  if doPaging && truthy nextV then
                    match nextV with
                    | .str nu =>
                      match getPagedJsonRecords env cfg fuel nu slugs doPaging depth' with
                      | .error e => .error e
                      | .ok (none, _) =>
                        .error "TypeError: can only concatenate list (not NoneType) to list"
                      | .ok (some rs, depthF) => .ok (some (records ++ rs), depthF)
                    | _ => .error "TypeError: url must be a string"
                  else .ok (some records, depth')
      else .ok (none, depth)

/- ---------------------------------------------------------------------
   Facet attribute extractor (get_standard_attributes,
   get_common_attributes).
   --------------------------------------------------------------------- -/

/-- The `add_attributes` classification of a facet definition URI in
`get_standard_attributes`: externally defined, or a linked-data
facet-property, or under the Open Context zooarchaeology vocabulary. -/
def addAttributesCheck (u : String) : Bool :=
  (! pyStartsWith u "oc-gen:" && ! pyStartsWith u "oc-api:"
    && ! pyStartsWith u "http://opencontext.org")
  || pyStartsWith u "oc-api:facet-prop-ld"
  || pyStartsWith u "http://opencontext.org/vocabularies/open-context-zooarch/"

/-- The per-option body of the `get_standard_attributes` loop: require a
truthy slug and label, skip biological-taxonomy slugs, deduplicate the
(slug, label) tuple, append. -/
def processStdOption (acc : List (Json × Json)) (fopt : Json) :
    Except String (List (Json × Json)) := do
  let slugJ := (← pyDictGet fopt "slug").getD .null
  let labelJ := (← pyDictGet fopt "label").getD .null
  if ! truthy slugJ || ! truthy labelJ then return acc
  match slugJ with
  | .str s =>
    if NON_ATTRIBUTE_SLUG_PREFIXES.any (fun p => pyStartsWith s p) then return acc
    let sl := (slugJ, labelJ)
    if acc.contains sl then return acc
    return acc ++ [sl]
  | _ => .error "AttributeError: object has no attribute startswith"

/-- The extra parameters `get_standard_attributes` sends. -/
def stdExtraParams (addVddBoneMeasures : Bool) : List (String × PVal) :=
  if addVddBoneMeasures then [("prop", .pstr VON_DEN_DRIESCH_PROP)] else []

/-- The facet loop of `get_standard_attributes` (everything after a
truthy response with a positive totalResults). -/
def stdAttributesBody (jd : Json) : Except String (List (Json × Json)) := do
  let facets ← pyIterElems (← pyDictGetD jd "oc-api:has-facets" (.arr []))
  facets.foldlM (fun acc facet =>
    FACET_OPTIONS_KEYS.foldlM (fun acc chk => do
      let has ← pyContains facet chk
      if ! has then return acc
      let defUriJ := (← pyDictGet facet "rdfs:isDefinedBy").getD .null
      if ! truthy defUriJ then return acc
      match defUriJ with
      | .str u =>
        if ! addAttributesCheck u then return acc
        let opts ← pyIterElems (← pyIndex facet chk)
        opts.foldlM processStdOption acc
      | _ => .error "AttributeError: object has no attribute startswith") acc) []

/-- `get_standard_attributes(url, add_von_den_driesch_bone_measures)`.
Note that `get_cache_url` raises on a failed fetch, so the
`if not json_data: return None` branch is unreachable. -/
def getStandardAttributes (env : FetchEnv) (pfx url : String)
    (addVddBoneMeasures : Bool) :
    Except String (Option (List (Json × Json))) :=
  match (getCacheUrl env pfx url (stdExtraParams addVddBoneMeasures)).result with
  | .error e => .error e
  | .ok jd =>
    if truthy jd then do
      let totalJ ← pyDictGetD jd "totalResults" (.int 0)
      let lt1 ← pyLt1 totalJ
      if lt1 then return (some [])
      let res ← stdAttributesBody jd
      return (some res)
    else .ok none

/-- `get_common_attributes(url, min_portion)`.  The source body
references the undefined attribute `FACET_OPTION_KEYS` (the class
defines `FACET_OPTIONS_KEYS`), so the inner loop raises AttributeError
as soon as the response carries at least one facet; the later lines
also reference the undefined name `df_uri` and append the accumulator
list to itself, but execution never reaches them.  With no facets the
loop body never runs and the empty list is returned. -/
def getCommonAttributes (env : FetchEnv) (pfx url : String)
    (minPortion : Rat) : Except String (Option (List (Json × Json))) :=
  match (getCacheUrl env pfx url []).result with
  | .error e => .error e
  | .ok jd =>
    if truthy jd then do
      let totalJ ← pyDictGetD jd "totalResults" (.int 0)
      let lt1 ← pyLt1 totalJ
      if lt1 then return (some [])
      let t ← pyToRat totalJ
      let _threshold := t * minPortion
      let facets ← pyIterElems (← pyDictGetD jd "oc-api:has-facets" (.arr []))
      if facets.isEmpty then return (some [])
      .error ("AttributeError: " ++ sq ++ "OpenContextAPI" ++ sq
        ++ " object has no attribute " ++ sq ++ "FACET_OPTION_KEYS" ++ sq)
    else .ok none

/- ---------------------------------------------------------------------
   Tabular assembler: column reordering (_reorder_dataframe_columns).
   --------------------------------------------------------------------- -/

/-- Stable insertion of `a` into `l`: `a` goes before the first element
whose key is not smaller (elements with equal keys keep their original
relative order, like Python's stable `list.sort`). -/
def insS {α β : Type} [LinearOrder β] (key : α → β) (a : α) : List α → List α
  | [] => [a]
  | b :: l => if key b < key a then b :: insS key a l else a :: b :: l

/-- Stable sort by a key, modeling Python's stable `list.sort(key=...)`
(stable sorts by the same key agree on all inputs). -/
def sortS {α β : Type} [LinearOrder β] (key : α → β) : List α → List α
  | [] => []
  | a :: l => insS key a (sortS key l)

/-- The pandas dtype of a column as `_reorder_dataframe_columns`
distinguishes them (`== 'object'`, `== 'bool'`, anything else). -/
inductive ColDtype where
  | object
  | boolean
  | int64
  | float64
  | datetime64
deriving DecidableEq

/-- The view of a dataframe that `_reorder_dataframe_columns` reads: the
column list in current order, and per column name its dtype and its
count of distinct values (`len(df[col].unique().tolist())`).  Reordering
the columns of a dataframe changes neither function. -/
structure DFrame where
  cols : List String
  dtype : String → ColDtype
  nuniq : String → Nat

/-- The context columns up to the tracked maximum depth,
`[template.format(i) for i in range(1, max_result_context_depth + 1)]`. -/
def contextCols (d : Nat) : List String :=
  (List.range d).map (fun i => mkContextCol (i + 1))

/-- The `first_cols` local of `_reorder_dataframe_columns`: the
preferred columns (including context columns up to depth `d`) that are
present, in preferred order. -/
def firstColsOf (d : Nat) (cols : List String) : List String :=
  (DEFAULT_FIRST_DF_COLUMNS ++ contextCols d).filter (fun c => cols.contains c)

/-- The `other_cols` local: the remaining columns in current order. -/
def otherColsOf (d : Nat) (cols : List String) : List String :=
  cols.filter (fun c => ! (firstColsOf d cols).contains c)

/-- The `obj_col_counts` local: (name, distinct-value count) pairs of
the object-dtype columns among `other_cols`. -/
def objColCountsOf (d : Nat) (df : DFrame) : List (String × Nat) :=
  ((otherColsOf d df.cols).filter
    (fun c => df.dtype c == ColDtype.object)).map (fun c => (c, df.nuniq c))

/-- The `obj_cols` local: object columns stably sorted by count. -/
def objColsOf (d : Nat) (df : DFrame) : List String :=
  (sortS Prod.snd (objColCountsOf d df)).map Prod.fst

/-- The `bool_cols` local: bool columns sorted by name. -/
def boolColsOf (d : Nat) (df : DFrame) : List String :=
  sortS id ((otherColsOf d df.cols).filter
    (fun c => df.dtype c == ColDtype.boolean))

/-- The `middle_cols` local. -/
def middleColsOf (d : Nat) (df : DFrame) : List String :=
  objColsOf d df ++ boolColsOf d df

/-- The `final_cols` local: everything else, sorted by name. -/
def finalColsOf (d : Nat) (df : DFrame) : List String :=
  sortS id ((otherColsOf d df.cols).filter
    (fun c => ! (middleColsOf d df).contains c))

/-- `_reorder_dataframe_columns(df)`: preferred columns first (those
present), then object-dtype columns stably sorted by distinct-value
count, then bool-dtype columns sorted by name, then the remaining
columns sorted by name.  `d` is `self.max_result_context_depth`.
Returns the new column order. -/
def reorderDataframeColumns (d : Nat) (df : DFrame) : List String :=
  firstColsOf d df.cols ++ middleColsOf d df ++ finalColsOf d df

/- ---------------------------------------------------------------------
   Concrete inputs used by witnesses and counterexamples.
   --------------------------------------------------------------------- -/

/-- Concrete configuration for witnesses (the `__init__` defaults with
prefix "p"). -/
def c2cfg : Config := defaultConfig "p"

/-- Raw records of witness page 1. -/
def c2rs1 : List Json :=
  [Json.obj [("label", Json.str "r1")], Json.obj [("label", Json.str "r2")]]

/-- Raw records of witness page 2. -/
def c2rs2 : List Json := [Json.obj [("label", Json.str "r3")]]

/-- Raw records of witness page 3 (with a context path, so the
normalization state moves). -/
def c2rs3 : List Json := [Json.obj [("context label", Json.str "A/B")]]

/-- Witness page 1: next points at u2. -/
def c2page1 : Json :=
  Json.obj [("totalResults", Json.int 4), ("startIndex", Json.int 0),
    ("itemsPerPage", Json.int 2), ("oc-api:has-results", Json.arr c2rs1),
    ("next", Json.str "u2")]

/-- Witness page 2: next points at u3. -/
def c2page2 : Json :=
  Json.obj [("totalResults", Json.int 4), ("startIndex", Json.int 2),
    ("itemsPerPage", Json.int 2), ("oc-api:has-results", Json.arr c2rs2),
    ("next", Json.str "u3")]

/-- Witness page 3: no next key. -/
def c2page3 : Json :=
  Json.obj [("totalResults", Json.int 4), ("startIndex", Json.int 3),
    ("itemsPerPage", Json.int 2), ("oc-api:has-results", Json.arr c2rs3)]

/-- Witness environment: empty cache, the fetch serves the three pages
by url. -/
def c2env : FetchEnv :=
  ⟨fun _ => none,
   fun u _ =>
     if u = "u1" then some c2page1
     else if u = "u2" then some c2page2
     else if u = "u3" then some c2page3
     else none⟩

/-- Normalized records of witness page 1. -/
def c2n1 : List (List (String × Json)) :=
  [[("label", Json.str "r1")], [("label", Json.str "r2")]]

/-- Normalized records of witness page 2. -/
def c2n2 : List (List (String × Json)) := [[("label", Json.str "r3")]]

/-- Normalized records of witness page 3. -/
def c2n3 : List (List (String × Json)) :=
  [[("Context (1)", Json.str "A"), ("Context (2)", Json.str "B")]]

/-- The synthetic response for claim C7: totalResults 100 and one facet
carrying an id-option with a predicate-namespace URI and count exactly
20 (the claim's inclusion boundary at min_portion 0.2). -/
def c7json : Json :=
  Json.obj
    [("totalResults", Json.int 100),
     ("oc-api:has-facets", Json.arr
       [Json.obj
         [("rdfs:isDefinedBy", Json.str "oc-api:facet-prop-var"),
          ("oc-api:has-id-options", Json.arr
            [Json.obj
              [("slug", Json.str "mat"),
               ("label", Json.str "Material"),
               ("rdfs:isDefinedBy", Json.str "http://opencontext.org/predicates/abc"),
               ("count", Json.int 20)]])]])]

/- =====================================================================
   Theorems for the claims.
   ===================================================================== -/

/-- Claim C3: for key "material" and values ["bone", "shell"], policy
concat with delimiter "; " yields the single entry
material ↦ "bone; shell"; policy column_val yields the two presence
entries "material :: bone" ↦ True and "material :: shell" ↦ True;
policy first yields material ↦ "bone". -/
theorem c3_multi_value_policy_table :
    handleMultiValues "; " "concat" "material"
      (Json.arr [Json.str "bone", Json.str "shell"]) []
      = .ok [("material", Json.str "bone; shell")]
    ∧ handleMultiValues "; " "column_val" "material"
      (Json.arr [Json.str "bone", Json.str "shell"]) []
      = .ok [("material :: bone", Json.bool true),
             ("material :: shell", Json.bool true)]
    ∧ handleMultiValues "; " "first" "material"
      (Json.arr [Json.str "bone", Json.str "shell"]) []
      = .ok [("material", Json.str "bone")] :=
  ⟨rfl, rfl, rfl⟩

/-- Counterexample to claim C4: invoking multi-value handling with the
unknown policy "xyz" does fail before the record is extended, but the
exception that surfaces is TypeError (raising the constructed bare
string is itself an error in Python 3), whose message does not name the
invalid policy — "xyz" does not occur in it — contrary to the claim
that the failure names the invalid policy. -/
theorem c4_unknown_policy_counterexample :
    handleMultiValues "; " "xyz" "material"
      (Json.arr [Json.str "bone", Json.str "shell"]) []
      = .error "TypeError: exceptions must derive from BaseException"
    ∧ pyIn "xyz" "TypeError: exceptions must derive from BaseException" = false :=
  ⟨rfl, by decide⟩

/-- Claim C4 as amended: a policy name outside the five known ones makes
_handle_multi_values fail before touching the record (no updated record
is produced, so the record under construction is not extended), but the
surfaced exception is the TypeError produced by raising a bare string
('exceptions must derive from BaseException'); the constructed message
naming the invalid policy is discarded, so the failure does not name
the policy. -/
theorem c4_unknown_policy_amended (delim handle key : String) (values : Json)
    (record : List (String × Json))
    (h : handle ∉ MULTI_VALUE_ATTRIBUTE_HANDLING) :
    handleMultiValues delim handle key values record
      = .error "TypeError: exceptions must derive from BaseException" := by
  unfold handleMultiValues
  rw [if_pos]
  simpa using h

/-- Witness for the amended C4 at the concrete unknown policy "xyz". -/
theorem c4_unknown_policy_amended_witness :
    "xyz" ∉ MULTI_VALUE_ATTRIBUTE_HANDLING
    ∧ handleMultiValues "; " "xyz" "material"
        (Json.arr [Json.str "bone", Json.str "shell"]) []
      = .error "TypeError: exceptions must derive from BaseException" :=
  ⟨by decide,
   c4_unknown_policy_amended "; " "xyz" "material"
     (Json.arr [Json.str "bone", Json.str "shell"]) [] (by decide)⟩

/-- Counterexample to claim C5: with keep_prefix=False the loop removes
every file, not only the ones whose name starts with the prefix; the
file "other.json" does not start with the prefix "2024-01-01" and the
claim says it is kept, yet it is deleted. -/
theorem c5_clear_cache_counterexample :
    (clearApiCache "2024-01-01" false [⟨"other.json", true⟩]).2 = ["other.json"]
    ∧ pyStartsWith "other.json" "2024-01-01" = false :=
  ⟨rfl, by decide⟩

/-- Claim C5 as amended: keep_prefix=True deletes exactly the file
entries whose names do not start with the configured prefix;
keep_prefix=False deletes every file entry (not only the
prefix-matching ones); non-file entries are always kept. -/
theorem c5_clear_cache_amended (pfx : String) (entries : List DirEntry) :
    clearApiCache pfx true entries
      = (entries.filter (fun e => ! e.isFile || pyStartsWith e.name pfx),
         (entries.filter (fun e => e.isFile && ! pyStartsWith e.name pfx)).map (·.name))
    ∧ clearApiCache pfx false entries
      = (entries.filter (fun e => ! e.isFile),
         (entries.filter (fun e => e.isFile)).map (·.name)) := by
  induction entries with
  | nil => exact ⟨rfl, rfl⟩
  | cons e rest ih =>
    refine ⟨?_, ?_⟩
    · simp only [clearApiCache, ih.1, List.filter_cons, List.map_cons]
      by_cases hf : e.isFile
      · by_cases hs : pyStartsWith e.name pfx <;> simp [hf, hs]
      · simp [hf]
    · simp only [clearApiCache, ih.2, List.filter_cons, List.map_cons]
      by_cases hf : e.isFile <;> simp [hf]

/-- Claim C7 names the intended behavior, but get_common_attributes
cannot return any option: its loop reads the undefined attribute
FACET_OPTION_KEYS, so on this response (totalResults 100, an eligible
facet option with count 20 that the claim says is returned) the call
raises instead of returning a list. -/
theorem c7_common_attributes_code_bug :
    getCommonAttributes ⟨fun _ => some c7json, fun _ _ => none⟩ "p" "http://u" (1/5)
      = .error ("AttributeError: " ++ sq ++ "OpenContextAPI" ++ sq
        ++ " object has no attribute " ++ sq ++ "FACET_OPTION_KEYS" ++ sq) :=
  rfl

/-- Claim C8: the context value "Site/Trench/Locus" is split into the
three depth-indexed context columns, and the tracked maximum context
depth is updated to 3 when it was smaller and is at least 3 afterwards. -/
theorem c8_context_splitting (cfg : Config) (d : Nat) :
    processRecordAttributes cfg d
      (Json.obj [("context label", Json.str "Site/Trench/Locus")])
      = .ok ([("Context (1)", Json.str "Site"),
              ("Context (2)", Json.str "Trench"),
              ("Context (3)", Json.str "Locus")],
             if 3 > d then 3 else d)
    ∧ 3 ≤ (if 3 > d then 3 else d) := by
  constructor
  · rfl
  · split <;> omega

/-- Helper for C1: when `k=` is embedded in the url, dropping the
entries with key `k` from the parameter dict does not change the
effective extra parameters computed by the url check. -/
theorem filter_embedded_key (u k : String) (params : List (String × PVal))
    (hk : pyIn (k ++ "=") u = true) :
    (params.filter (fun kv => kv.1 != k)).filter (fun kv => ! pyIn (kv.1 ++ "=") u)
      = params.filter (fun kv => ! pyIn (kv.1 ++ "=") u) := by
  rw [List.filter_filter]
  apply List.filter_congr
  intro kv _
  by_cases h : kv.1 = k
  · simp [h, hk]
  · simp [h]

/-- Helper for C1: removing the entries of a key other than `prop` does
not change the `prop` lookup. -/
theorem find_prop_of_filter_ne (k : String) (params : List (String × PVal))
    (hkp : k ≠ "prop") :
    (params.filter (fun kv => kv.1 != k)).find? (fun kv => kv.1 == "prop")
      = params.find? (fun kv => kv.1 == "prop") := by
  induction params with
  | nil => rfl
  | cons kv rest ih =>
    by_cases h : kv.1 = k
    · have hkq : (k == "prop") = false := by simp [hkp]
      simp [List.filter_cons, h, List.find?_cons, hkq, ih]
    · by_cases hp : kv.1 = "prop"
      · have hpk : ("prop" : String) ≠ k := Ne.symm hkp
        simp [List.filter_cons, h, List.find?_cons, hp, hpk]
      · simp [List.filter_cons, h, List.find?_cons, hp, ih]

/-- Helper for C1: `_modify_get_params_by_url_check` gives the same
result whether or not a non-`prop` parameter already embedded in the url
is present in the map, provided both maps are nonempty. -/
theorem modify_drop_embedded (u k : String) (params : List (String × PVal))
    (hk : pyIn (k ++ "=") u = true) (hkp : k ≠ "prop")
    (hne : params ≠ []) (hne2 : params.filter (fun kv => kv.1 != k) ≠ []) :
    modifyGetParamsByUrlCheck u (params.filter (fun kv => kv.1 != k))
      = modifyGetParamsByUrlCheck u params := by
  unfold modifyGetParamsByUrlCheck
  rw [if_neg (by simp [hne2]), if_neg (by simp [hne])]
  unfold pyGet
  rw [find_prop_of_filter_ne k params hkp, filter_embedded_key u k params hk]

set_option maxRecDepth 100000 in
/-- Counterexample to claim C1: for the url
http://opencontext.org/query?rows=10 (whose query string embeds the
parameter key rows), building the cache file name with rows present in
the extra-parameter map and with it absent yields different names: once
the embedded key is filtered away the map is empty but the original map
is still truthy, so the serialized suffix is the text of an empty dict
rather than the empty string, and the hashes differ. -/
theorem c1_cache_key_counterexample :
    pyIn ("rows" ++ "=") (stripFragment "http://opencontext.org/query?rows=10") = true
    ∧ makeUrlCacheFileName "2020-01-01" "http://opencontext.org/query?rows=10"
        [("rows", PVal.pint 10)]
      = .ok "2020-01-01-dd05995f1a1d26070f18398da14e97de2bffe9f6.json"
    ∧ makeUrlCacheFileName "2020-01-01" "http://opencontext.org/query?rows=10" []
      = .ok "2020-01-01-e9f0e9c850ca8cc07e5de8e193b8dfac21b6419e.json"
    ∧ ("2020-01-01-dd05995f1a1d26070f18398da14e97de2bffe9f6.json" : String)
      ≠ "2020-01-01-e9f0e9c850ca8cc07e5de8e193b8dfac21b6419e.json" :=
  ⟨by decide, rfl, rfl, by decide⟩

/-- Claim C1 as amended: building the cache file name is deterministic
(same url, parameter map and prefix always give the same name), and a
parameter whose `key=` is already embedded in the (fragment-stripped)
url does not change the name, provided the parameter is not the
special-cased `prop` key and removing it leaves the parameter map
nonempty.  (When removal empties the map the serialized suffix switches
between the empty-dict text and the empty string and the name changes,
as the counterexample shows.) -/
theorem c1_cache_key_amended :
    (∀ pfx url params,
      makeUrlCacheFileName pfx url params = makeUrlCacheFileName pfx url params)
    ∧ (∀ pfx url k params,
        pyIn (k ++ "=") (stripFragment url) = true → k ≠ "prop" →
        params.filter (fun kv => kv.1 != k) ≠ [] →
        makeUrlCacheFileName pfx url params
          = makeUrlCacheFileName pfx url (params.filter (fun kv => kv.1 != k))) := by
  refine ⟨fun _ _ _ => rfl, fun pfx url k params hk hkp hne2 => ?_⟩
  have hne : params ≠ [] := by
    intro h
    rw [h] at hne2
    simp at hne2
  have hpe : params.isEmpty = false := by
    cases params with
    | nil => exact absurd rfl hne
    | cons a l => rfl
  have hfe : (params.filter (fun kv => kv.1 != k)).isEmpty = false := by
    cases hcase : params.filter (fun kv => kv.1 != k) with
    | nil => exact absurd hcase hne2
    | cons a l => rfl
  have hmod := modify_drop_embedded (stripFragment url) k params hk hkp hne hne2
  simp only [makeUrlCacheFileName, hpe, hfe, hmod]

/-- Witness for the amended C1 at a concrete input: the url embeds a=1,
the map carries a and one further parameter b, and the two names agree. -/
theorem c1_cache_key_amended_witness :
    pyIn ("a" ++ "=") (stripFragment "http://opencontext.org/query?a=1") = true
    ∧ ("a" : String) ≠ "prop"
    ∧ ([("a", PVal.pstr "1"), ("b", PVal.pstr "2")].filter
        (fun kv => kv.1 != "a")) ≠ []
    ∧ makeUrlCacheFileName "p" "http://opencontext.org/query?a=1"
        [("a", PVal.pstr "1"), ("b", PVal.pstr "2")]
      = makeUrlCacheFileName "p" "http://opencontext.org/query?a=1"
        ([("a", PVal.pstr "1"), ("b", PVal.pstr "2")].filter
          (fun kv => kv.1 != "a")) :=
  ⟨by decide, by decide, by decide,
   c1_cache_key_amended.2 "p" "http://opencontext.org/query?a=1" "a"
     [("a", PVal.pstr "1"), ("b", PVal.pstr "2")]
     (by decide) (by decide) (by decide)⟩

/-- Counterexample to claim C6: with an empty cache and a failing
fetch, get_standard_attributes and get_common_attributes do not return
None; get_cache_url raises (the source does
`raise('Request fail with URL: ...')` when the live request fails or
parses to a falsy body) and the error propagates, so the
`if not json_data: return None` branches are unreachable. -/
theorem c6_fetch_failure_counterexample :
    getStandardAttributes ⟨fun _ => none, fun _ _ => none⟩ "p" "http://u" false
      = .error ("Request fail with URL: " ++ "http://u")
    ∧ getStandardAttributes ⟨fun _ => none, fun _ _ => none⟩ "p" "http://u" false
      ≠ .ok none
    ∧ getCommonAttributes ⟨fun _ => none, fun _ _ => none⟩ "p" "http://u" (1 / 5)
      = .error ("Request fail with URL: " ++ "http://u")
    ∧ getCommonAttributes ⟨fun _ => none, fun _ _ => none⟩ "p" "http://u" (1 / 5)
      ≠ .ok none :=
  ⟨rfl, fun h => Except.noConfusion h, rfl, fun h => Except.noConfusion h⟩

/-- Claim C6 as amended: when the underlying fetch fails (so
get_cache_url raises), get_standard_attributes and
get_common_attributes propagate that raised failure unchanged; they
never return None and never return an empty list, and the dead
None-returning branches are unreachable.  A query that succeeds with
zero matches still returns an empty list. -/
theorem c6_fetch_failure_amended (env : FetchEnv) (pfx url : String)
    (vdd : Bool) (q : Rat) (m1 m2 : String)
    (h1 : (getCacheUrl env pfx url (stdExtraParams vdd)).result = .error m1)
    (h2 : (getCacheUrl env pfx url []).result = .error m2) :
    getStandardAttributes env pfx url vdd = .error m1
    ∧ getCommonAttributes env pfx url q = .error m2 := by
  constructor
  · unfold getStandardAttributes
    rw [h1]
  · unfold getCommonAttributes
    rw [h2]

/-- Witness for the amended C6 with a concretely failing environment. -/
theorem c6_fetch_failure_amended_witness :
    (getCacheUrl ⟨fun _ => none, fun _ _ => none⟩ "p" "http://u"
        (stdExtraParams false)).result
      = .error ("Request fail with URL: " ++ "http://u")
    ∧ (getCacheUrl ⟨fun _ => none, fun _ _ => none⟩ "p" "http://u" []).result
      = .error ("Request fail with URL: " ++ "http://u")
    ∧ getStandardAttributes ⟨fun _ => none, fun _ _ => none⟩ "p" "http://u" false
      = .error ("Request fail with URL: " ++ "http://u")
    ∧ getCommonAttributes ⟨fun _ => none, fun _ _ => none⟩ "p" "http://u" (1 / 5)
      = .error ("Request fail with URL: " ++ "http://u") :=
  ⟨rfl, rfl,
   (c6_fetch_failure_amended ⟨fun _ => none, fun _ _ => none⟩ "p" "http://u"
     false (1 / 5) _ _ rfl rfl).1,
   (c6_fetch_failure_amended ⟨fun _ => none, fun _ _ => none⟩ "p" "http://u"
     false (1 / 5) _ _ rfl rfl).2⟩

/-- Claim C10: a cache entry that exists and parses to a falsy JSON
value is treated exactly as a cache miss: get_cache_url falls through
to the live path (the cached falsy payload is never returned), and on
that path the pacing sleep runs and a live request is attempted (given
that resolving the effective parameters succeeds, which it always does
for the parameter maps this client builds). -/
theorem c10_falsy_cache_miss (env : FetchEnv) (pfx url : String)
    (params eff : List (String × PVal)) (nm : String) (j : Json)
    (hn : makeUrlCacheFileName pfx url params = .ok nm)
    (hc : env.cacheRead nm = some j)
    (hf : truthy j = false)
    (hm : modifyGetParamsByUrlCheck url params = .ok eff) :
    getCacheUrl env pfx url params = liveFetch env url params nm
    ∧ (liveFetch env url params nm).slept = true
    ∧ (liveFetch env url params nm).fetched = true := by
  refine ⟨?_, ?_, ?_⟩
  · simp only [getCacheUrl, hn, hc, hf]
    simp
  · simp only [liveFetch, hm]
    cases env.fetch url eff with
    | none => rfl
    | some p => by_cases ht : truthy p <;> simp [ht]
  · simp only [liveFetch, hm]
    cases env.fetch url eff with
    | none => rfl
    | some p => by_cases ht : truthy p <;> simp [ht]

set_option maxRecDepth 100000 in
/-- Witness for C10: a concrete environment whose cache holds an empty
JSON object (falsy) under the cache name of the request. -/
theorem c10_falsy_cache_miss_witness :
    makeUrlCacheFileName "p" "http://u" []
      = .ok "p-e9189fc1a5993fd89f9f70ff6ec0e4a59a5310c9.json"
    ∧ (⟨fun _ => some (Json.obj []), fun _ _ => none⟩ : FetchEnv).cacheRead
        "p-e9189fc1a5993fd89f9f70ff6ec0e4a59a5310c9.json"
      = some (Json.obj [])
    ∧ truthy (Json.obj []) = false
    ∧ modifyGetParamsByUrlCheck "http://u" [] = .ok []
    ∧ (getCacheUrl ⟨fun _ => some (Json.obj []), fun _ _ => none⟩ "p" "http://u" []
        = liveFetch ⟨fun _ => some (Json.obj []), fun _ _ => none⟩ "http://u" []
            "p-e9189fc1a5993fd89f9f70ff6ec0e4a59a5310c9.json"
      ∧ (liveFetch ⟨fun _ => some (Json.obj []), fun _ _ => none⟩ "http://u" []
          "p-e9189fc1a5993fd89f9f70ff6ec0e4a59a5310c9.json").slept = true
      ∧ (liveFetch ⟨fun _ => some (Json.obj []), fun _ _ => none⟩ "http://u" []
          "p-e9189fc1a5993fd89f9f70ff6ec0e4a59a5310c9.json").fetched = true) :=
  ⟨rfl, rfl, rfl, rfl,
   c10_falsy_cache_miss ⟨fun _ => some (Json.obj []), fun _ _ => none⟩
     "p" "http://u" [] [] "p-e9189fc1a5993fd89f9f70ff6ec0e4a59a5310c9.json"
     (Json.obj []) rfl rfl rfl rfl⟩

/-- A missing `next` key is falsy (helper for C2). -/
theorem truthy_null : truthy Json.null = false := rfl

/-- Claim C2: on a chain of three pages where page 1 links next to page
2, page 2 links next to page 3 and page 3 has no next, the walker with
paging enabled returns the normalized records of page 1, then page 2,
then page 3, in page order with no reordering or deduplication (the
normalization state is threaded through the pages in the same order);
with do_paging=False it returns only page 1's normalized records.  The
fuel argument only bounds the recursion depth (Python's recursion
limit) and any value large enough for the chain works. -/
theorem c2_pagination_concatenation (env : FetchEnv) (cfg : Config)
    (fuel d : Nat) (u1 u2 u3 : String) (p1 p2 p3 : Json)
    (slugs : List String) (rs1 rs2 rs3 : List Json)
    (n1 n2 n3 : List (List (String × Json))) (d1 d2 d3 : Nat)
    (hf1 : (getCacheUrl env cfg.cacheFilePfx u1 (buildPageParams cfg slugs)).result
      = .ok p1)
    (hf2 : (getCacheUrl env cfg.cacheFilePfx u2 (buildPageParams cfg slugs)).result
      = .ok p2)
    (hf3 : (getCacheUrl env cfg.cacheFilePfx u3 (buildPageParams cfg slugs)).result
      = .ok p3)
    (ht1 : truthy p1 = true) (ht2 : truthy p2 = true) (ht3 : truthy p3 = true)
    (hpc1 : progressCheck p1 = .ok ()) (hpc2 : progressCheck p2 = .ok ())
    (hpc3 : progressCheck p3 = .ok ())
    (hr1 : pyDictGetD p1 "oc-api:has-results" (Json.arr []) = .ok (Json.arr rs1))
    (hr2 : pyDictGetD p2 "oc-api:has-results" (Json.arr []) = .ok (Json.arr rs2))
    (hr3 : pyDictGetD p3 "oc-api:has-results" (Json.arr []) = .ok (Json.arr rs3))
    (hn1 : pyDictGet p1 "next" = .ok (some (Json.str u2)))
    (hn2 : pyDictGet p2 "next" = .ok (some (Json.str u3)))
    (hn3 : pyDictGet p3 "next" = .ok none)
    (hu2 : truthy (Json.str u2) = true) (hu3 : truthy (Json.str u3) = true)
    (hp1 : processRecords cfg d rs1 = .ok (n1, d1))
    (hp2 : processRecords cfg d1 rs2 = .ok (n2, d2))
    (hp3 : processRecords cfg d2 rs3 = .ok (n3, d3)) :
    getPagedJsonRecords env cfg (fuel + 1 + 1 + 1) u1 slugs true d
      = .ok (some (n1 ++ (n2 ++ n3)), d3)
    ∧ getPagedJsonRecords env cfg (fuel + 1) u1 slugs false d
      = .ok (some n1, d1) := by
  constructor
  · simp only [getPagedJsonRecords, hf1, hf2, hf3, ht1, ht2, ht3, hpc1, hpc2,
      hpc3, hr1, hr2, hr3, hn1, hn2, hn3, hp1, hp2, hp3, pyIterElems,
      Option.getD, hu2, hu3, truthy_null, Bool.true_and, Bool.and_false, if_true,
      if_false]
    simp
  · simp only [getPagedJsonRecords, hf1, ht1, hpc1, hr1, hn1, hp1, pyIterElems,
      Option.getD, Bool.false_and, if_false]
    simp

/-- Witness for C2 on a concrete three-page chain (page 3 carries a
context path, so the threaded depth state ends at 2). -/
theorem c2_pagination_concatenation_witness :
    (getCacheUrl c2env c2cfg.cacheFilePfx "u1"
        (buildPageParams c2cfg ["slug-a"])).result = .ok c2page1
    ∧ (getCacheUrl c2env c2cfg.cacheFilePfx "u2"
        (buildPageParams c2cfg ["slug-a"])).result = .ok c2page2
    ∧ (getCacheUrl c2env c2cfg.cacheFilePfx "u3"
        (buildPageParams c2cfg ["slug-a"])).result = .ok c2page3
    ∧ truthy c2page1 = true ∧ truthy c2page2 = true ∧ truthy c2page3 = true
    ∧ progressCheck c2page1 = .ok () ∧ progressCheck c2page2 = .ok ()
    ∧ progressCheck c2page3 = .ok ()
    ∧ pyDictGetD c2page1 "oc-api:has-results" (Json.arr []) = .ok (Json.arr c2rs1)
    ∧ pyDictGetD c2page2 "oc-api:has-results" (Json.arr []) = .ok (Json.arr c2rs2)
    ∧ pyDictGetD c2page3 "oc-api:has-results" (Json.arr []) = .ok (Json.arr c2rs3)
    ∧ pyDictGet c2page1 "next" = .ok (some (Json.str "u2"))
    ∧ pyDictGet c2page2 "next" = .ok (some (Json.str "u3"))
    ∧ pyDictGet c2page3 "next" = .ok none
    ∧ processRecords c2cfg 0 c2rs1 = .ok (c2n1, 0)
    ∧ processRecords c2cfg 0 c2rs2 = .ok (c2n2, 0)
    ∧ processRecords c2cfg 0 c2rs3 = .ok (c2n3, 2)
    ∧ (getPagedJsonRecords c2env c2cfg (0 + 1 + 1 + 1) "u1" ["slug-a"] true 0
        = .ok (some (c2n1 ++ (c2n2 ++ c2n3)), 2)
      ∧ getPagedJsonRecords c2env c2cfg (0 + 1) "u1" ["slug-a"] false 0
        = .ok (some c2n1, 0)) :=
  ⟨rfl, rfl, rfl, rfl, rfl, rfl, rfl, rfl, rfl, rfl, rfl, rfl, rfl, rfl, rfl,
   rfl, rfl, rfl,
   c2_pagination_concatenation c2env c2cfg 0 0 "u1" "u2" "u3"
     c2page1 c2page2 c2page3 ["slug-a"] c2rs1 c2rs2 c2rs3 c2n1 c2n2 c2n3 0 0 2
     rfl rfl rfl rfl rfl rfl rfl rfl rfl rfl rfl rfl rfl rfl rfl rfl rfl
     rfl rfl rfl⟩

/-- Stable insertion permutes. -/
theorem insS_perm {α β : Type} [LinearOrder β] (key : α → β) (a : α)
    (l : List α) : List.Perm (insS key a l) (a :: l) := by
  induction l with
  | nil => rfl
  | cons b t ih =>
    unfold insS
    split
    · exact (ih.cons b).trans (List.Perm.swap a b t)
    · rfl

/-- Stable sort permutes. -/
theorem sortS_perm {α β : Type} [LinearOrder β] (key : α → β) (l : List α) :
    List.Perm (sortS key l) l := by
  induction l with
  | nil => rfl
  | cons a t ih => exact (insS_perm key a (sortS key t)).trans (ih.cons a)

/-- Stable insertion into a key-sorted list keeps it key-sorted. -/
theorem insS_sorted {α β : Type} [LinearOrder β] (key : α → β) (a : α)
    (l : List α) (h : l.Pairwise (fun x y => key x ≤ key y)) :
    (insS key a l).Pairwise (fun x y => key x ≤ key y) := by
  induction l with
  | nil => simp [insS]
  | cons b t ih =>
    unfold insS
    split
    · rename_i hlt
      refine List.pairwise_cons.mpr ⟨?_, ih (List.Pairwise.of_cons h)⟩
      intro x hx
      rcases List.mem_cons.mp ((insS_perm key a t).mem_iff.mp hx) with hxa | hxt
      · rw [hxa]
        exact le_of_lt hlt
      · exact (List.pairwise_cons.mp h).1 x hxt
    · rename_i hge
      refine List.pairwise_cons.mpr ⟨?_, h⟩
      intro x hx
      rcases List.mem_cons.mp hx with hxb | hxt
      · rw [hxb]
        exact not_lt.mp hge
      · exact le_trans (not_lt.mp hge) ((List.pairwise_cons.mp h).1 x hxt)

/-- Stable sort key-sorts. -/
theorem sortS_sorted {α β : Type} [LinearOrder β] (key : α → β) (l : List α) :
    (sortS key l).Pairwise (fun x y => key x ≤ key y) := by
  induction l with
  | nil => simp [sortS]
  | cons a t ih => exact insS_sorted key a (sortS key t) ih

/-- Stable sort of an already key-sorted list is the identity (so
Python's stable sort is idempotent). -/
theorem sortS_of_sorted {α β : Type} [LinearOrder β] (key : α → β)
    (l : List α) (h : l.Pairwise (fun x y => key x ≤ key y)) :
    sortS key l = l := by
  induction l with
  | nil => rfl
  | cons a t ih =>
    show insS key a (sortS key t) = a :: t
    rw [ih (List.Pairwise.of_cons h)]
    cases t with
    | nil => rfl
    | cons b u =>
      unfold insS
      rw [if_neg (not_lt.mpr ((List.pairwise_cons.mp h).1 b (by simp)))]

/-- Membership in the preferred first columns (helper for C9). -/
theorem mem_firstColsOf (d : Nat) (cols : List String) (x : String) :
    x ∈ firstColsOf d cols
      ↔ x ∈ DEFAULT_FIRST_DF_COLUMNS ++ contextCols d ∧ x ∈ cols := by
  unfold firstColsOf
  simp [List.mem_filter]
  tauto

/-- Membership in the remaining columns (helper for C9). -/
theorem mem_otherColsOf (d : Nat) (cols : List String) (x : String) :
    x ∈ otherColsOf d cols ↔ x ∈ cols ∧ ¬ x ∈ firstColsOf d cols := by
  unfold otherColsOf
  simp [List.mem_filter]

/-- Membership in the object-dtype columns (helper for C9). -/
theorem mem_objColsOf (d : Nat) (df : DFrame) (x : String) :
    x ∈ objColsOf d df
      ↔ x ∈ otherColsOf d df.cols ∧ df.dtype x = ColDtype.object := by
  unfold objColsOf objColCountsOf
  rw [((sortS_perm Prod.snd _).map Prod.fst).mem_iff]
  simp [List.mem_filter]

/-- Membership in the bool-dtype columns (helper for C9). -/
theorem mem_boolColsOf (d : Nat) (df : DFrame) (x : String) :
    x ∈ boolColsOf d df
      ↔ x ∈ otherColsOf d df.cols ∧ df.dtype x = ColDtype.boolean := by
  unfold boolColsOf
  rw [(sortS_perm id _).mem_iff]
  simp [List.mem_filter]

/-- Membership in the trailing columns (helper for C9). -/
theorem mem_finalColsOf (d : Nat) (df : DFrame) (x : String) :
    x ∈ finalColsOf d df
      ↔ x ∈ otherColsOf d df.cols ∧ ¬ x ∈ middleColsOf d df := by
  unfold finalColsOf
  rw [(sortS_perm id _).mem_iff]
  simp [List.mem_filter]

/-- A middle column comes from the remaining columns (helper for C9). -/
theorem mem_other_of_mem_middle (d : Nat) (df : DFrame) (x : String)
    (h : x ∈ middleColsOf d df) : x ∈ otherColsOf d df.cols := by
  rcases List.mem_append.mp (by simpa [middleColsOf] using h) with h1 | h1
  · exact ((mem_objColsOf d df x).mp h1).1
  · exact ((mem_boolColsOf d df x).mp h1).1

/-- Reordering preserves the set of columns (helper for C9). -/
theorem mem_reorder (d : Nat) (df : DFrame) (x : String) :
    x ∈ reorderDataframeColumns d df ↔ x ∈ df.cols := by
  unfold reorderDataframeColumns middleColsOf
  simp only [List.mem_append]
  constructor
  · intro h
    rcases h with (hF | hB | hC) | hD
    · exact ((mem_firstColsOf d df.cols x).mp hF).2
    · exact ((mem_otherColsOf d df.cols x).mp ((mem_objColsOf d df x).mp hB).1).1
    · exact ((mem_otherColsOf d df.cols x).mp ((mem_boolColsOf d df x).mp hC).1).1
    · exact ((mem_otherColsOf d df.cols x).mp ((mem_finalColsOf d df x).mp hD).1).1
  · intro hx
    by_cases hF : x ∈ firstColsOf d df.cols
    · exact Or.inl (Or.inl hF)
    · have hO : x ∈ otherColsOf d df.cols := (mem_otherColsOf d df.cols x).mpr ⟨hx, hF⟩
      by_cases hobj : df.dtype x = ColDtype.object
      · exact Or.inl (Or.inr (Or.inl ((mem_objColsOf d df x).mpr ⟨hO, hobj⟩)))
      · by_cases hbool : df.dtype x = ColDtype.boolean
        · exact Or.inl (Or.inr (Or.inr ((mem_boolColsOf d df x).mpr ⟨hO, hbool⟩)))
        · refine Or.inr ((mem_finalColsOf d df x).mpr ⟨hO, ?_⟩)
          intro hM
          rcases List.mem_append.mp (by simpa [middleColsOf] using hM) with hB | hC
          · exact hobj ((mem_objColsOf d df x).mp hB).2
          · exact hbool ((mem_boolColsOf d df x).mp hC).2

/-- Recomputing the preferred first columns on a reordered table gives
the same list (helper for C9). -/
theorem reorder_first_stable (d : Nat) (df : DFrame) :
    firstColsOf d (reorderDataframeColumns d df) = firstColsOf d df.cols := by
  unfold firstColsOf
  apply List.filter_congr
  intro c _
  rcases Bool.eq_false_or_eq_true ((reorderDataframeColumns d df).contains c) with h1 | h1 <;>
    rcases Bool.eq_false_or_eq_true (df.cols.contains c) with h2 | h2 <;>
      simp_all [mem_reorder]

/-- Recomputing the remaining columns on a reordered table gives the
middle and final blocks in order (helper for C9). -/
theorem reorder_other_stable (d : Nat) (df : DFrame) :
    otherColsOf d (reorderDataframeColumns d df)
      = middleColsOf d df ++ finalColsOf d df := by
  unfold otherColsOf
  simp only [reorder_first_stable]
  have hsplit : reorderDataframeColumns d df
      = firstColsOf d df.cols ++ (middleColsOf d df ++ finalColsOf d df) := by
    unfold reorderDataframeColumns
    rw [List.append_assoc]
  rw [hsplit, List.filter_append]
  have h1 : (firstColsOf d df.cols).filter
      (fun c => ! (firstColsOf d df.cols).contains c) = [] := by
    rw [List.filter_eq_nil_iff]
    intro a ha
    simp [ha]
  have h2 : (middleColsOf d df ++ finalColsOf d df).filter
      (fun c => ! (firstColsOf d df.cols).contains c)
      = middleColsOf d df ++ finalColsOf d df := by
    rw [List.filter_eq_self]
    intro a ha
    have hO : a ∈ otherColsOf d df.cols := by
      rcases List.mem_append.mp ha with h | h
      · exact mem_other_of_mem_middle d df a h
      · exact ((mem_finalColsOf d df a).mp h).1
    have := ((mem_otherColsOf d df.cols a).mp hO).2
    simpa using this
  rw [h1, h2]
  simp

/-- Recomputing the object columns on a reordered table gives the same
list: the filter recovers exactly the object block, which is already
count-sorted, and the stable sort leaves it unchanged (helper for C9). -/
theorem reorder_obj_stable (d : Nat) (df : DFrame) :
    objColsOf d ⟨reorderDataframeColumns d df, df.dtype, df.nuniq⟩
      = objColsOf d df := by
  have hfilter : (otherColsOf d (reorderDataframeColumns d df)).filter
      (fun c => df.dtype c == ColDtype.object) = objColsOf d df := by
    rw [reorder_other_stable]
    have hm : middleColsOf d df = objColsOf d df ++ boolColsOf d df := rfl
    rw [hm, List.append_assoc, List.filter_append]
    have hB : (objColsOf d df).filter (fun c => df.dtype c == ColDtype.object)
        = objColsOf d df := by
      rw [List.filter_eq_self]
      intro a ha
      simp [((mem_objColsOf d df a).mp ha).2]
    have hCD : (boolColsOf d df ++ finalColsOf d df).filter
        (fun c => df.dtype c == ColDtype.object) = [] := by
      rw [List.filter_eq_nil_iff]
      intro a ha
      rcases List.mem_append.mp ha with h | h
      · simp [((mem_boolColsOf d df a).mp h).2]
      · rcases (mem_finalColsOf d df a).mp h with ⟨hO, hnm⟩
        intro hobj
        have : df.dtype a = ColDtype.object := by simpa using hobj
        exact hnm (by
          have : a ∈ objColsOf d df := (mem_objColsOf d df a).mpr ⟨hO, this⟩
          simpa [middleColsOf] using Or.inl this)
    rw [hB, hCD]
    simp
  have hpairs : (objColsOf d df).map (fun c => (c, df.nuniq c))
      = sortS Prod.snd (objColCountsOf d df) := by
    unfold objColsOf
    rw [List.map_map]
    have hid : ∀ p ∈ sortS Prod.snd (objColCountsOf d df),
        ((fun c => (c, df.nuniq c)) ∘ Prod.fst) p = p := by
      intro p hp
      have hp2 : p ∈ objColCountsOf d df :=
        (sortS_perm Prod.snd _).mem_iff.mp hp
      unfold objColCountsOf at hp2
      rcases List.mem_map.mp hp2 with ⟨c, _, rfl⟩
      rfl
    rw [List.map_congr_left hid]
    simp
  show (sortS Prod.snd (((otherColsOf d (reorderDataframeColumns d df)).filter
      (fun c => df.dtype c == ColDtype.object)).map
      (fun c => (c, df.nuniq c)))).map Prod.fst = objColsOf d df
  rw [hfilter, hpairs, sortS_of_sorted Prod.snd _ (sortS_sorted Prod.snd _)]
  rfl

/-- Recomputing the bool columns on a reordered table gives the same
list (helper for C9). -/
theorem reorder_bool_stable (d : Nat) (df : DFrame) :
    boolColsOf d ⟨reorderDataframeColumns d df, df.dtype, df.nuniq⟩
      = boolColsOf d df := by
  have hfilter : (otherColsOf d (reorderDataframeColumns d df)).filter
      (fun c => df.dtype c == ColDtype.boolean) = boolColsOf d df := by
    rw [reorder_other_stable]
    have hm : middleColsOf d df = objColsOf d df ++ boolColsOf d df := rfl
    rw [hm, List.append_assoc, List.filter_append, List.filter_append]
    have hB : (objColsOf d df).filter (fun c => df.dtype c == ColDtype.boolean)
        = [] := by
      rw [List.filter_eq_nil_iff]
      intro a ha
      simp [((mem_objColsOf d df a).mp ha).2]
    have hC : (boolColsOf d df).filter (fun c => df.dtype c == ColDtype.boolean)
        = boolColsOf d df := by
      rw [List.filter_eq_self]
      intro a ha
      simp [((mem_boolColsOf d df a).mp ha).2]
    have hD : (finalColsOf d df).filter (fun c => df.dtype c == ColDtype.boolean)
        = [] := by
      rw [List.filter_eq_nil_iff]
      intro a ha
      rcases (mem_finalColsOf d df a).mp ha with ⟨hO, hnm⟩
      intro hbool
      have : df.dtype a = ColDtype.boolean := by simpa using hbool
      exact hnm (by
        have : a ∈ boolColsOf d df := (mem_boolColsOf d df a).mpr ⟨hO, this⟩
        simpa [middleColsOf] using Or.inr this)
    rw [hB, hC, hD]
    simp
  have hsorted : (boolColsOf d df).Pairwise (fun x y => id x ≤ id y) := by
    unfold boolColsOf
    exact sortS_sorted id _
  show sortS id ((otherColsOf d (reorderDataframeColumns d df)).filter
      (fun c => df.dtype c == ColDtype.boolean)) = boolColsOf d df
  rw [hfilter, sortS_of_sorted id _ hsorted]

/-- Recomputing the trailing columns on a reordered table gives the
same list (helper for C9). -/
theorem reorder_final_stable (d : Nat) (df : DFrame) :
    finalColsOf d ⟨reorderDataframeColumns d df, df.dtype, df.nuniq⟩
      = finalColsOf d df := by
  have hmid : middleColsOf d ⟨reorderDataframeColumns d df, df.dtype, df.nuniq⟩
      = middleColsOf d df := by
    show objColsOf d _ ++ boolColsOf d _ = middleColsOf d df
    rw [reorder_obj_stable, reorder_bool_stable]
    rfl
  have hfilter : (otherColsOf d (reorderDataframeColumns d df)).filter
      (fun c => ! (middleColsOf d df).contains c) = finalColsOf d df := by
    rw [reorder_other_stable, List.filter_append]
    have hM : (middleColsOf d df).filter
        (fun c => ! (middleColsOf d df).contains c) = [] := by
      rw [List.filter_eq_nil_iff]
      intro a ha
      simp [ha]
    have hD : (finalColsOf d df).filter
        (fun c => ! (middleColsOf d df).contains c) = finalColsOf d df := by
      rw [List.filter_eq_self]
      intro a ha
      have := ((mem_finalColsOf d df a).mp ha).2
      simpa using this
    rw [hM, hD]
    simp
  have hsorted : (finalColsOf d df).Pairwise (fun x y => id x ≤ id y) := by
    unfold finalColsOf
    exact sortS_sorted id _
  show sortS id ((otherColsOf d (reorderDataframeColumns d df)).filter
      (fun c => ! (middleColsOf d ⟨reorderDataframeColumns d df, df.dtype,
        df.nuniq⟩).contains c)) = finalColsOf d df
  rw [hmid, hfilter, sortS_of_sorted id _ hsorted]

/-- Claim C9: column reordering is idempotent — reordering a table whose
columns are already in the order the operation produces (with the same
per-column dtypes and distinct-value counts, which reordering does not
change) returns the same column order. -/
theorem c9_reorder_idempotent (d : Nat) (df : DFrame) :
    reorderDataframeColumns d ⟨reorderDataframeColumns d df, df.dtype, df.nuniq⟩
      = reorderDataframeColumns d df := by
  show firstColsOf d (reorderDataframeColumns d df)
      ++ middleColsOf d ⟨reorderDataframeColumns d df, df.dtype, df.nuniq⟩
      ++ finalColsOf d ⟨reorderDataframeColumns d df, df.dtype, df.nuniq⟩
    = reorderDataframeColumns d df
  have hmid : middleColsOf d ⟨reorderDataframeColumns d df, df.dtype, df.nuniq⟩
      = middleColsOf d df := by
    show objColsOf d _ ++ boolColsOf d _ = middleColsOf d df
    rw [reorder_obj_stable, reorder_bool_stable]
    rfl
  rw [reorder_first_stable, hmid, reorder_final_stable]
  rfl

end OCAPI

